import Mathlib

/-!
Verification of the booking-record extraction and normalization pipeline.

The definitions below are a shallow embedding of the Python sources:
  src/scrapers/worker.py      (ScraperWorker: extract_value, determine_status,
                               parse_date, and the per-block normalization in run)
  src/scrapers/parallel_scraper.py  (PBSOParallelScraper.handle_result)
  src/utils/data_processing.py      (parse_date)
  src/utils/export.py               (export_to_csv column computation)
  src/gui/main_window.py            (MainWindow.run_search delay correction)

Python strings are modelled by Lean `String` (operating on `String.data`);
Python `datetime` values by the `PyDateTime` structure below; `datetime.now()`
is passed explicitly as a `now` parameter.  Python's whitespace class is
modelled by the six ASCII whitespace characters.
-/

/-- Python whitespace characters (ASCII part of `\s` and `str.strip`). -/
def isPyWs (c : Char) : Bool :=
  c = ' ' || c = '\t' || c = '\n' || c = '\r' || c = '\x0b' || c = '\x0c'

/-- Numeric value of a decimal digit character. -/
def dval (c : Char) : Nat := c.toNat - 48

/-- Model of Python `str.strip()`. -/
def pyStrip (s : String) : String :=
  ⟨((s.data.dropWhile isPyWs).reverse.dropWhile isPyWs).reverse⟩

/-- Model of Python `str.lower()` (ASCII letters). -/
def pyLower (s : String) : String := ⟨s.data.map Char.toLower⟩

/-- `listPre p s` holds when `p` is a prefix of `s` (helper for substring tests). -/
def listPre : List Char → List Char → Bool
  | [], _ => true
  | _ :: _, [] => false
  | a :: as, b :: bs => a = b && listPre as bs

/-- `listInf p s`: `p` occurs as a contiguous run inside `s`. -/
def listInf (p : List Char) : List Char → Bool
  | [] => listPre p []
  | c :: t => listPre p (c :: t) || listInf p t

/-- Model of Python `label in line` substring containment. -/
def strContains (s pat : String) : Bool := listInf pat.data s.data

/-- Model of Python `text.split("\n")` on the character list. -/
def splitNl : List Char → List (List Char)
  | [] => [[]]
  | c :: t =>
    match splitNl t with
    | [] => [[]]
    | l :: ls => if c = '\n' then [] :: l :: ls else (c :: l) :: ls

/-- Lines of a text, as strings. -/
def pyLines (s : String) : List String := (splitNl s.data).map (fun l => ⟨l⟩)

/-- Model of Python `str.replace(pat, "")` for a non-empty pattern:
removes every occurrence of `pat` (fuel-driven scan, left to right). -/
def removeAllAux : Nat → List Char → List Char → List Char
  | 0, _, cs => cs
  | _ + 1, _, [] => []
  | fuel + 1, pat, c :: t =>
    if listPre pat (c :: t) ∧ pat ≠ [] then
      removeAllAux fuel pat ((c :: t).drop pat.length)
    else
      c :: removeAllAux fuel pat t

/-- Model of Python `s.replace(pat, "")`. -/
def removeAll (s pat : String) : String := ⟨removeAllAux s.data.length pat.data s.data⟩

/-- Gregorian leap-year rule (as used by Python `datetime`). -/
def isLeap (y : Nat) : Bool := y % 4 = 0 && (y % 100 ≠ 0 || y % 400 = 0)

/-- Days in a month of a given year. -/
def daysInMonth (y m : Nat) : Nat :=
  if m = 2 then (if isLeap y then 29 else 28)
  else if m = 4 ∨ m = 6 ∨ m = 9 ∨ m = 11 then 30
  else 31

/-- Days in the months strictly before month `m` of a non-leap year. -/
def cumMonthDays (m : Nat) : Nat :=
  match m with
  | 1 => 0 | 2 => 31 | 3 => 59 | 4 => 90 | 5 => 120 | 6 => 151
  | 7 => 181 | 8 => 212 | 9 => 243 | 10 => 273 | 11 => 304 | 12 => 334
  | _ => 0

/-- Days strictly before January 1 of year `y` counting from year 1
(CPython `date.toordinal` arithmetic). -/
def daysBeforeYear (y : Nat) : Nat :=
  365 * (y - 1) + (y - 1) / 4 - (y - 1) / 100 + (y - 1) / 400

/-- Proleptic-Gregorian ordinal of a date (1 = 0001-01-01), as in CPython. -/
def toOrdinal (y m d : Nat) : Nat :=
  daysBeforeYear y + cumMonthDays m + (if 2 < m ∧ isLeap y then 1 else 0) + d

/-- Model of a Python `datetime.datetime` value (validated on construction). -/
structure PyDateTime where
  year : Nat
  month : Nat
  day : Nat
  hour : Nat
  minute : Nat
  second : Nat
deriving Repr, DecidableEq

/-- Seconds since 0001-01-01 00:00:00; Python `datetime` comparison and
subtraction agree with comparison and subtraction of this value. -/
def PyDateTime.toSec (t : PyDateTime) : Nat :=
  (toOrdinal t.year t.month t.day - 1) * 86400 + t.hour * 3600 + t.minute * 60 + t.second

/-- Whole days of the Python `timedelta` `a - b` (floor division, as in Python). -/
def tdDays (a b : PyDateTime) : Int := ((a.toSec : Int) - (b.toSec : Int)).fdiv 86400

/-- `datetime(...)` constructor validation: Python raises `ValueError` (the
format then fails) for year 0, an out-of-range day, or second > 59. -/
def mkDT (y m d hh mi ss : Nat) : Option PyDateTime :=
  if 1 ≤ y ∧ 1 ≤ d ∧ d ≤ daysInMonth y m ∧ ss ≤ 59 then
    some ⟨y, m, d, hh, mi, ss⟩
  else
    none

/-!
`strptime` field matchers.  CPython's `_strptime` compiles each directive to
an ordered regex alternation; each matcher below returns the list of
(value, rest) alternatives in the engine's priority order.  `firstSome`
threads ordered choice with full backtracking through a continuation,
which is exactly the regex engine's search order.
-/

/-- Directive `%m`: regex `1[0-2]|0[1-9]|[1-9]`. -/
def matchMonth : List Char → List (Nat × List Char)
  | c1 :: c2 :: rest =>
    (if c1 = '1' ∧ '0' ≤ c2 ∧ c2 ≤ '2' then [(10 + dval c2, rest)] else []) ++
    (if c1 = '0' ∧ '1' ≤ c2 ∧ c2 ≤ '9' then [(dval c2, rest)] else []) ++
    (if '1' ≤ c1 ∧ c1 ≤ '9' then [(dval c1, c2 :: rest)] else [])
  | [c1] => if '1' ≤ c1 ∧ c1 ≤ '9' then [(dval c1, [])] else []
  | [] => []

/-- Directive `%d`: regex `3[01]|[12]\d|0[1-9]|[1-9]`. -/
def matchDay : List Char → List (Nat × List Char)
  | c1 :: c2 :: rest =>
    (if c1 = '3' ∧ ('0' ≤ c2 ∧ c2 ≤ '1') then [(30 + dval c2, rest)] else []) ++
    (if (c1 = '1' ∨ c1 = '2') ∧ c2.isDigit then [(10 * dval c1 + dval c2, rest)] else []) ++
    (if c1 = '0' ∧ '1' ≤ c2 ∧ c2 ≤ '9' then [(dval c2, rest)] else []) ++
    (if '1' ≤ c1 ∧ c1 ≤ '9' then [(dval c1, c2 :: rest)] else [])
  | [c1] => if '1' ≤ c1 ∧ c1 ≤ '9' then [(dval c1, [])] else []
  | [] => []

/-- Directive `%H`: regex `2[0-3]|[0-1]\d|\d`. -/
def matchHour : List Char → List (Nat × List Char)
  | c1 :: c2 :: rest =>
    (if c1 = '2' ∧ '0' ≤ c2 ∧ c2 ≤ '3' then [(20 + dval c2, rest)] else []) ++
    (if (c1 = '0' ∨ c1 = '1') ∧ c2.isDigit then [(10 * dval c1 + dval c2, rest)] else []) ++
    (if c1.isDigit then [(dval c1, c2 :: rest)] else [])
  | [c1] => if c1.isDigit then [(dval c1, [])] else []
  | [] => []

/-- Directive `%M`: regex `[0-5]\d|\d`. -/
def matchMinute : List Char → List (Nat × List Char)
  | c1 :: c2 :: rest =>
    (if ('0' ≤ c1 ∧ c1 ≤ '5') ∧ c2.isDigit then [(10 * dval c1 + dval c2, rest)] else []) ++
    (if c1.isDigit then [(dval c1, c2 :: rest)] else [])
  | [c1] => if c1.isDigit then [(dval c1, [])] else []
  | [] => []

/-- Directive `%S`: regex `6[0-1]|[0-5]\d|\d` (60/61 fail datetime validation). -/
def matchSecond : List Char → List (Nat × List Char)
  | c1 :: c2 :: rest =>
    (if c1 = '6' ∧ ('0' ≤ c2 ∧ c2 ≤ '1') then [(60 + dval c2, rest)] else []) ++
    (if ('0' ≤ c1 ∧ c1 ≤ '5') ∧ c2.isDigit then [(10 * dval c1 + dval c2, rest)] else []) ++
    (if c1.isDigit then [(dval c1, c2 :: rest)] else [])
  | [c1] => if c1.isDigit then [(dval c1, [])] else []
  | [] => []

/-- Directive `%Y`: regex `\d\d\d\d` (exactly four digits). -/
def matchYear4 : List Char → List (Nat × List Char)
  | c1 :: c2 :: c3 :: c4 :: rest =>
    if c1.isDigit ∧ c2.isDigit ∧ c3.isDigit ∧ c4.isDigit then
      [(1000 * dval c1 + 100 * dval c2 + 10 * dval c3 + dval c4, rest)]
    else []
  | _ => []

/-- Directive `%y`: regex `\d\d`, with CPython's century mapping. -/
def matchYear2 : List Char → List (Nat × List Char)
  | c1 :: c2 :: rest =>
    if c1.isDigit ∧ c2.isDigit then
      let yy := 10 * dval c1 + dval c2
      [(if yy ≤ 68 then 2000 + yy else 1900 + yy, rest)]
    else []
  | _ => []

/-- Format whitespace becomes `\s+`; since every following directive starts
with a digit, greedy maximal munch is exact. -/
def matchWsPlus (cs : List Char) : Option (List Char) :=
  let rest := cs.dropWhile isPyWs
  if rest.length < cs.length then some rest else none

/-- Ordered choice with continuation: try each alternative in priority order,
taking the first whose continuation succeeds (regex backtracking order). -/
def firstSome {α β : Type} (opts : List (α × List Char)) (k : α → List Char → Option β) :
    Option β :=
  match opts with
  | [] => none
  | (v, rest) :: t =>
    match k v rest with
    | some r => some r
    | none => firstSome t k

/-- Regex phase of format `%m/%d/%Y %H:%M`: first pattern match (anchored at
the start) with its unconsumed remainder. -/
def matchMDYHM (cs : List Char) : Option ((Nat × Nat × Nat × Nat × Nat) × List Char) :=
  firstSome (matchMonth cs) fun m cs1 =>
  match cs1 with
  | '/' :: cs2 =>
    firstSome (matchDay cs2) fun d cs3 =>
    match cs3 with
    | '/' :: cs4 =>
      firstSome (matchYear4 cs4) fun y cs5 =>
      match matchWsPlus cs5 with
      | some cs6 =>
        firstSome (matchHour cs6) fun hh cs7 =>
        match cs7 with
        | ':' :: cs8 =>
          firstSome (matchMinute cs8) fun mi cs9 => some ((m, d, y, hh, mi), cs9)
        | _ => none
      | none => none
    | _ => none
  | _ => none

/-- Regex phase of format `%m/%d/%Y %H:%M:%S`. -/
def matchMDYHMS (cs : List Char) :
    Option ((Nat × Nat × Nat × Nat × Nat × Nat) × List Char) :=
  firstSome (matchMonth cs) fun m cs1 =>
  match cs1 with
  | '/' :: cs2 =>
    firstSome (matchDay cs2) fun d cs3 =>
    match cs3 with
    | '/' :: cs4 =>
      firstSome (matchYear4 cs4) fun y cs5 =>
      match matchWsPlus cs5 with
      | some cs6 =>
        firstSome (matchHour cs6) fun hh cs7 =>
        match cs7 with
        | ':' :: cs8 =>
          firstSome (matchMinute cs8) fun mi cs9 =>
          match cs9 with
          | ':' :: cs10 =>
            firstSome (matchSecond cs10) fun ss cs11 => some ((m, d, y, hh, mi, ss), cs11)
          | _ => none
        | _ => none
      | none => none
    | _ => none
  | _ => none

/-- Regex phase of format `%m/%d/%Y`. -/
def matchMDY (cs : List Char) : Option ((Nat × Nat × Nat) × List Char) :=
  firstSome (matchMonth cs) fun m cs1 =>
  match cs1 with
  | '/' :: cs2 =>
    firstSome (matchDay cs2) fun d cs3 =>
    match cs3 with
    | '/' :: cs4 => firstSome (matchYear4 cs4) fun y cs5 => some ((m, d, y), cs5)
    | _ => none
  | _ => none

/-- Regex phase of format `%m/%d/%y %H:%M`. -/
def matchMDyHM (cs : List Char) : Option ((Nat × Nat × Nat × Nat × Nat) × List Char) :=
  firstSome (matchMonth cs) fun m cs1 =>
  match cs1 with
  | '/' :: cs2 =>
    firstSome (matchDay cs2) fun d cs3 =>
    match cs3 with
    | '/' :: cs4 =>
      firstSome (matchYear2 cs4) fun y cs5 =>
      match matchWsPlus cs5 with
      | some cs6 =>
        firstSome (matchHour cs6) fun hh cs7 =>
        match cs7 with
        | ':' :: cs8 =>
          firstSome (matchMinute cs8) fun mi cs9 => some ((m, d, y, hh, mi), cs9)
        | _ => none
      | none => none
    | _ => none
  | _ => none

/-- Regex phase of format `%m/%d/%y`. -/
def matchMDy (cs : List Char) : Option ((Nat × Nat × Nat) × List Char) :=
  firstSome (matchMonth cs) fun m cs1 =>
  match cs1 with
  | '/' :: cs2 =>
    firstSome (matchDay cs2) fun d cs3 =>
    match cs3 with
    | '/' :: cs4 => firstSome (matchYear2 cs4) fun y cs5 => some ((m, d, y), cs5)
    | _ => none
  | _ => none

/-- `datetime.strptime(s, "%m/%d/%Y %H:%M")`: regex match anchored at the
start, then the whole-string check, then `datetime` construction. -/
def strptimeMDYHM (cs : List Char) : Option PyDateTime :=
  match matchMDYHM cs with
  | some ((m, d, y, hh, mi), rest) => if rest = [] then mkDT y m d hh mi 0 else none
  | none => none

/-- `datetime.strptime(s, "%m/%d/%Y %H:%M:%S")`. -/
def strptimeMDYHMS (cs : List Char) : Option PyDateTime :=
  match matchMDYHMS cs with
  | some ((m, d, y, hh, mi, ss), rest) => if rest = [] then mkDT y m d hh mi ss else none
  | none => none

/-- `datetime.strptime(s, "%m/%d/%Y")`. -/
def strptimeMDY (cs : List Char) : Option PyDateTime :=
  match matchMDY cs with
  | some ((m, d, y), rest) => if rest = [] then mkDT y m d 0 0 0 else none
  | none => none

/-- `datetime.strptime(s, "%m/%d/%y %H:%M")`. -/
def strptimeMDyHM (cs : List Char) : Option PyDateTime :=
  match matchMDyHM cs with
  | some ((m, d, y, hh, mi), rest) => if rest = [] then mkDT y m d hh mi 0 else none
  | none => none

/-- `datetime.strptime(s, "%m/%d/%y")`. -/
def strptimeMDy (cs : List Char) : Option PyDateTime :=
  match matchMDy cs with
  | some ((m, d, y), rest) => if rest = [] then mkDT y m d 0 0 0 else none
  | none => none

namespace ScraperWorker

/-- `ScraperWorker.parse_date` (src/scrapers/worker.py lines 188-215):
sentinel check on the raw string, strip, then the five formats in order. -/
def parse_date (date_str : String) : Option PyDateTime :=
  if date_str = "" ∨ date_str = "N/A" ∨ date_str = "Still in custody" then none
  else
    let cs := (pyStrip date_str).data
    match strptimeMDYHM cs with
    | some d => some d
    | none =>
      match strptimeMDYHMS cs with
      | some d => some d
      | none =>
        match strptimeMDY cs with
        | some d => some d
        | none =>
          match strptimeMDyHM cs with
          | some d => some d
          | none => strptimeMDy cs

end ScraperWorker

namespace DataProcessing

/-- `parse_date` (src/utils/data_processing.py lines 50-61): only the empty
string short-circuits; four formats (no `%H:%M:%S` variant); no strip. -/
def parse_date (date_str : String) : Option PyDateTime :=
  if date_str = "" then none
  else
    let cs := date_str.data
    match strptimeMDYHM cs with
    | some d => some d
    | none =>
      match strptimeMDY cs with
      | some d => some d
      | none =>
        match strptimeMDyHM cs with
        | some d => some d
        | none => strptimeMDy cs

end DataProcessing

/-- `re.search` position scan: try the pattern anchored at every suffix,
left to right, returning the first success. -/
def scanFor {α : Type} (f : List Char → Option α) : List Char → Option α
  | [] => f []
  | c :: t =>
    match f (c :: t) with
    | some r => some r
    | none => scanFor f t

/-- Anchored attempt of `Booking Number:\s*(\d+)` at one position. -/
def tryBookingNumber (s : List Char) : Option String :=
  if listPre "Booking Number:".data s then
    let r := (s.drop 15).dropWhile isPyWs
    let ds := r.takeWhile Char.isDigit
    if ds ≠ [] then some ⟨ds⟩ else none
  else none

/-- `re.search(r'Booking Number:\s*(\d+)', text)`, capture group 1. -/
def reBookingNumber (text : String) : Option String := scanFor tryBookingNumber text.data

/-- Anchored attempt of
`Booking Date/Time:\s*(\d{2}/\d{2}/\d{4}\s+\d{2}:\d{2})` at one position.
The alternate pattern without `\s*` tried next by the source matches a
subset of this one, so it never fires when this one fails. -/
def tryBookingDate (s : List Char) : Option String :=
  if listPre "Booking Date/Time:".data s then
    match (s.drop 18).dropWhile isPyWs with
    | a :: b :: '/' :: c :: d :: '/' :: e :: f :: g :: h :: rest =>
      if a.isDigit ∧ b.isDigit ∧ c.isDigit ∧ d.isDigit ∧
         e.isDigit ∧ f.isDigit ∧ g.isDigit ∧ h.isDigit then
        let ws := rest.takeWhile isPyWs
        if ws ≠ [] then
          match rest.dropWhile isPyWs with
          | i :: j :: ':' :: k :: l :: _ =>
            if i.isDigit ∧ j.isDigit ∧ k.isDigit ∧ l.isDigit then
              some ⟨[a, b, '/', c, d, '/', e, f, g, h] ++ ws ++ [i, j, ':', k, l]⟩
            else none
          | _ => none
        else none
      else none
    | _ => none
  else none

/-- `re.search(r'Booking Date/Time:\s*(\d{2}/\d{2}/\d{4}\s+\d{2}:\d{2})', text)`. -/
def reBookingDate (text : String) : Option String := scanFor tryBookingDate text.data

/-- Anchored attempt of `Release Date:\s*([^\n]+)` at one position;
when everything after the label is whitespace, the greedy `\s*`
backtracks so that `[^\n]+` captures the last non-newline character. -/
def tryReleaseDate (s : List Char) : Option String :=
  if listPre "Release Date:".data s then
    let r := s.drop 13
    let w := r.dropWhile isPyWs
    if w ≠ [] then some ⟨w.takeWhile (fun c => c ≠ '\n')⟩
    else
      match r.reverse.dropWhile (fun c => c = '\n') with
      | [] => none
      | c :: _ => some ⟨[c]⟩
  else none

/-- `re.search(r'Release Date:\s*([^\n]+)', text)`. -/
def reReleaseDate (text : String) : Option String := scanFor tryReleaseDate text.data

/-- Anchored attempt of `Cell Location:([^\n]+)` at one position. -/
def tryCellLoc (s : List Char) : Option String :=
  if listPre "Cell Location:".data s then
    match s.drop 14 with
    | [] => none
    | c :: t => if c = '\n' then none else some ⟨(c :: t).takeWhile (fun x => x ≠ '\n')⟩
  else none

/-- `re.search(r'Cell Location:([^\n]+)', text)`. -/
def reCellLoc (text : String) : Option String := scanFor tryCellLoc text.data

/-- Section-terminator keywords for the charges collector. -/
def chargeStops : List String :=
  ["Bond:", "Original Bond:", "Current Bond:", "Bond Information", "Release Date:"]

/-- The charges while-loop: take lines until one contains a terminator,
keep the stripped non-empty ones, join with " | " (None when empty). -/
def collectCharges (rest : List String) : Option String :=
  let collected :=
    ((rest.takeWhile fun l => !(chargeStops.any fun k => strContains l k)).map pyStrip).filter
      fun l => l ≠ ""
  match collected with
  | [] => none
  | _ => some (String.intercalate " | " collected)

/-- The `label == "Charges:"` branch of `extract_value`: prefer a bare
`Charges` section header, else the first line containing `Charges:`. -/
def chargesBranch (lines : List String) : Option String :=
  match lines.findIdx? (fun l => pyStrip l == "Charges") with
  | some j => collectCharges (lines.drop (j + 1))
  | none =>
    match lines.findIdx? (fun l => strContains l "Charges:") with
    | some j => collectCharges (lines.drop (j + 1))
    | none => none

/-- Alternate-format loop of the cell-location branch: first line holding
`Cell Location:` whose remainder (or the next line) strips non-empty. -/
def altCellLoop : List String → Option String
  | [] => none
  | l :: rest =>
    if strContains l "Cell Location:" then
      let t := pyStrip (removeAll l "Cell Location:")
      if t ≠ "" then some t
      else
        match rest with
        | nxt :: _ =>
          if pyStrip nxt ≠ "" then some (pyStrip nxt) else altCellLoop rest
        | [] => altCellLoop rest
    else altCellLoop rest

/-- Facility-line backup of the cell-location branch. -/
def facilityLoop : List String → Option String
  | [] => none
  | l :: rest =>
    if strContains l "Facility:" then
      let f := pyStrip (removeAll l "Facility:")
      if f ≠ "" ∧ ¬(pyLower f = "no file" ∨ pyLower f = "") then some f
      else facilityLoop rest
    else facilityLoop rest

/-- The whole `label == "Cell Location:"` special chain (regex, alternate
loop, facility backup); `none` falls through to the generic rule. -/
def cellBranch (text : String) (lines : List String) : Option String :=
  match reCellLoc text with
  | some g =>
    if pyStrip g ≠ "" then some (pyStrip g)
    else
      match altCellLoop lines with
      | some v => some v
      | none => facilityLoop lines
  | none =>
    match altCellLoop lines with
    | some v => some v
    | none => facilityLoop lines

/-- Generic rule: the stripped line after line `i`, or nothing when `i`
is the last line (`if i + 1 < len(lines): return lines[i+1].strip()`). -/
def genericNext (lines : List String) (i : Nat) : Option String :=
  (lines.get? (i + 1)).map pyStrip

namespace ScraperWorker

/-- `ScraperWorker.extract_value` (src/scrapers/worker.py lines 34-138).
The body runs for the first line containing the label; each label-specific
handler that finds nothing falls through to the generic next-line rule,
except the charges branch, which always returns from inside its block. -/
def extract_value (text label : String) : Option String :=
  if text = "" ∨ label = "" then none
  else
    match (pyLines text).findIdx? (fun l => strContains l label) with
    | none => none
    | some i =>
      if label = "Cell Location:" then
        match cellBranch text (pyLines text) with
        | some v => some v
        | none => genericNext (pyLines text) i
      else if label = "Charges:" then chargesBranch (pyLines text)
      else if label = "Booking Number:" then
        match reBookingNumber text with
        | some v => some v
        | none => genericNext (pyLines text) i
      else if label = "Booking Date/Time:" then
        match reBookingDate text with
        | some v => some v
        | none => genericNext (pyLines text) i
      else if label = "Release Date:" then
        match reReleaseDate text with
        | some v => some (pyStrip v)
        | none => genericNext (pyLines text) i
      else genericNext (pyLines text) i

end ScraperWorker

/-- Input normalization in `determine_status`:
`str(x).strip().lower() if x else ""`. -/
def normInput (s : String) : String := if s = "" then "" else pyLower (pyStrip s)

/-- Custody-indicator vocabulary (src/scrapers/worker.py lines 173-176). -/
def custodyIndicators : List String :=
  ["jail", "prison", "facility", "block", "pod", "cell",
   "detention", "surety bond", "bonds", "holding", "center"]

/-- One step of `re.sub(r'\s*time:.*', '', s)`: at a position, the match
consumes the whitespace run, the literal `time:`, and the rest of the line. -/
def tryTimeAt (s : List Char) : Option (List Char) :=
  let w := s.dropWhile isPyWs
  if listPre "time:".data w then some ((w.drop 5).dropWhile fun c => c ≠ '\n') else none

/-- Fuel-driven left-to-right scan of `re.sub(r'\s*time:.*', '', s)`. -/
def cleanTimeAux : Nat → List Char → List Char
  | 0, cs => cs
  | _ + 1, [] => []
  | fuel + 1, c :: t =>
    match tryTimeAt (c :: t) with
    | some rest => cleanTimeAux fuel rest
    | none => c :: cleanTimeAux fuel t

/-- `re.sub(r'\s*time:.*', '', s, flags=re.IGNORECASE)` on an already
lowercased string. -/
def cleanTimeSub (s : String) : String := ⟨cleanTimeAux s.data.length s.data⟩

namespace ScraperWorker

/-- The release-date test of `determine_status` (lines 161-168): a
non-sentinel normalized release string whose `time:`-stripped form parses
to a date not after `now`. -/
def releasedCheck (release_date_str : String) (now : PyDateTime) : Bool :=
  if normInput release_date_str ≠ "" ∧ normInput release_date_str ≠ "n/a" ∧
     normInput release_date_str ≠ "unknown" ∧
     normInput release_date_str ≠ "still in custody" then
    match parse_date (cleanTimeSub (normInput release_date_str)) with
    | some d => if d.toSec ≤ now.toSec then true else false
    | none => false
  else false

/-- `ScraperWorker.determine_status` (src/scrapers/worker.py lines 140-186). -/
def determine_status (release_date_str cell_location : String) (now : PyDateTime) : String :=
  if releasedCheck release_date_str now then "Released"
  else if normInput cell_location ≠ "" ∧
      custodyIndicators.any (fun k => strContains (normInput cell_location) k) then "In Custody"
  else if normInput release_date_str = "n/a" then "In Custody"
  else "Unknown"

end ScraperWorker

/-- Python `x or default` for an optional string: `None` and `""` are falsy. -/
def pyOr (o : Option String) (dflt : String) : String :=
  match o with
  | some s => if s = "" then dflt else s
  | none => dflt

/-- The structured record built for one raw block in `ScraperWorker.run`
(src/scrapers/worker.py lines 344-354). -/
structure BookingRecord where
  name : String
  bookingNumber : String
  bookingDate : String
  releaseDate : String
  status : String
  timeServed : Int
  charges : String
  cellLocation : String
  rawData : String
deriving Repr, DecidableEq

namespace ScraperWorker

/-- `booking_date = self.parse_date(booking_date_str)` with the extracted,
defaulted booking-date string (lines 317 and 323). -/
def bookingDateOf (text : String) : Option PyDateTime :=
  parse_date (pyOr (extract_value text "Booking Date/Time:") "Unknown")

/-- `release_date_str = self.extract_value(text, "Release Date:") or "N/A"`. -/
def releaseStrOf (text : String) : String := pyOr (extract_value text "Release Date:") "N/A"

/-- `release_date = self.parse_date(release_date_str) if release_date_str != "N/A" else None`. -/
def releaseDateOf (text : String) : Option PyDateTime :=
  if releaseStrOf text ≠ "N/A" then parse_date (releaseStrOf text) else none

/-- Time-served computation (src/scrapers/worker.py lines 329-341). -/
def computeTimeServed (booking release : Option PyDateTime) (now : PyDateTime) : Int :=
  match booking with
  | some b =>
    match release with
    | some r =>
      if b.toSec < r.toSec then max 1 (tdDays r b) else max 0 (tdDays now b)
    | none => max 0 (tdDays now b)
  | none => 0

/-- Per-block normalization of `ScraperWorker.run`
(src/scrapers/worker.py lines 311-356), with `datetime.now()` passed in. -/
def processBlock (last first text : String) (now : PyDateTime) : BookingRecord :=
  let booking_number := pyOr (extract_value text "Booking Number:") "Unknown"
  let booking_date_str := pyOr (extract_value text "Booking Date/Time:") "Unknown"
  let release_date_str := releaseStrOf text
  let charges := pyOr (extract_value text "Charges:") "Not specified"
  let cell_location := pyOr (extract_value text "Cell Location:") "Not specified"
  let status := determine_status release_date_str cell_location now
  let time_served := computeTimeServed (bookingDateOf text) (releaseDateOf text) now
  { name := last ++ ", " ++ first
    bookingNumber := booking_number
    bookingDate := booking_date_str
    releaseDate := if status = "Released" then release_date_str else "Still in custody"
    status := status
    timeServed := time_served
    charges := charges
    cellLocation := cell_location
    rawData := text }

end ScraperWorker

/-- Scenario 1 raw block of the specification. -/
def scenario1Block : String :=
  "Booking Number: 55521\nBooking Date/Time: 01/01/2024 10:00\nRelease Date: N/A\nCell Location: Main Jail\nCharges:\nBurglary"

/-- Scenario 2 raw block: Scenario 1 with the release date filled in. -/
def scenario2Block : String :=
  "Booking Number: 55521\nBooking Date/Time: 01/01/2024 10:00\nRelease Date: 01/10/2024 08:00\nCell Location: Main Jail\nCharges:\nBurglary"

example : ScraperWorker.extract_value scenario2Block "Booking Number:" = some "55521" := by
  decide

example : ScraperWorker.extract_value scenario2Block "Release Date:" =
    some "01/10/2024 08:00" := by decide

example : ScraperWorker.extract_value scenario2Block "Charges:" = some "Burglary" := by
  decide

example : ScraperWorker.extract_value scenario2Block "Cell Location:" =
    some "Main Jail" := by decide

example :
    (ScraperWorker.processBlock "Doe" "John" scenario2Block ⟨2026, 10, 1, 0, 0, 0⟩).status =
    "Released" := by decide

example :
    (ScraperWorker.processBlock "Doe" "John" scenario2Block ⟨2026, 10, 1, 0, 0, 0⟩).timeServed =
    8 := by decide

example :
    (ScraperWorker.processBlock "Doe" "John" scenario1Block ⟨2026, 10, 1, 0, 0, 0⟩).status =
    "In Custody" := by decide

example : ScraperWorker.parse_date "01/10/2024 08:00" =
    some ⟨2024, 1, 10, 8, 0, 0⟩ := by decide

example :
    (ScraperWorker.processBlock "Doe" "John" scenario1Block ⟨2026, 10, 1, 0, 0, 0⟩).timeServed =
    1003 := by decide

example : ScraperWorker.extract_value "Booking Number: pending\nFoo" "Booking Number:" =
    some "Foo" := by decide

/-- A Python dict value occurring in a booking record: a string or an int. -/
inductive Val where
  | s (x : String)
  | i (x : Int)
deriving Repr, DecidableEq

/-- Truthiness of a dict value (`if record["Release Date"]`). -/
def Val.truthy : Val → Bool
  | .s x => x ≠ ""
  | .i n => n ≠ 0

/-- A booking record as a Python dict: association list in insertion order. -/
abbrev RecordMap : Type := List (String × Val)

/-- `key in record`. -/
def rmHas (r : RecordMap) (k : String) : Bool := (r : List (String × Val)).any fun p => p.1 = k

/-- `record[key]` as an option (first binding). -/
def rmGet (r : RecordMap) (k : String) : Option Val :=
  ((r : List (String × Val)).find? fun p => p.1 = k).map Prod.snd

/-- The dict literal built in `ScraperWorker.run` (lines 344-354),
in its insertion order. -/
def BookingRecord.toMap (r : BookingRecord) : RecordMap :=
  [("Name", .s r.name), ("Booking Number", .s r.bookingNumber),
   ("Booking Date", .s r.bookingDate), ("Release Date", .s r.releaseDate),
   ("Status", .s r.status), ("Time Served (Days)", .i r.timeServed),
   ("Charges", .s r.charges), ("Cell Location", .s r.cellLocation),
   ("Raw Data", .s r.rawData)]

/-- Name backfill of `handle_result`
(`if "Name" not in record: record["Name"] = name`); a dict assignment to a
missing key appends the binding. -/
def backfillName (name : String) (r : RecordMap) : RecordMap :=
  if rmHas r "Name" then r else (r : List (String × Val)) ++ [("Name", .s name)]

/-- Required-field repair of `handle_result`
(src/scrapers/parallel_scraper.py lines 106-121) for the record at index
`i`: a missing booking number becomes `"Unknown-<i>"`, a missing status is
inferred from the release-date binding. -/
def repairRecord (i : Nat) (r : RecordMap) : RecordMap :=
  let r1 :=
    if rmHas r "Booking Number" then r
    else (r : List (String × Val)) ++ [("Booking Number", .s ("Unknown-" ++ toString i))]
  if rmHas r1 "Status" then r1
  else
    let released :=
      match rmGet r1 "Release Date" with
      | some v => v.truthy && (v != Val.s "N/A")
      | none => false
    (r1 : List (String × Val)) ++
      [("Status", .s (if released then "Released" else "In Custody"))]

/-- The per-record repair step of the merge critical section:
name backfill followed by required-field repair. -/
def repairStep (name : String) (i : Nat) (r : RecordMap) : RecordMap :=
  repairRecord i (backfillName name r)

/-- `for i, record in enumerate(booking_data)` indexed repair loop. -/
def repairAll (i : Nat) : List RecordMap → List RecordMap
  | [] => []
  | r :: t => repairRecord i r :: repairAll (i + 1) t

/-- Shared state of `PBSOParallelScraper`: per-name text results, the
consolidated dataset, and the completed counter. -/
structure AggState where
  results : List (String × String)
  dataset : List RecordMap
  completed : Nat
deriving Repr

/-- The `(name, result-text, record-list)` triple a worker delivers. -/
structure TaskResult where
  name : String
  text : String
  records : List RecordMap

/-- Dict assignment `self.results[name] = result`. -/
def setResult (m : List (String × String)) (k v : String) : List (String × String) :=
  if m.any (fun p => p.1 = k) then m.map (fun p => if p.1 = k then (k, v) else p)
  else m ++ [(k, v)]

/-- `PBSOParallelScraper.handle_result` critical section
(src/scrapers/parallel_scraper.py lines 89-133): store the text result,
backfill names, repair and append every record, bump the counter. -/
def handle_result (st : AggState) (t : TaskResult) : AggState :=
  { results := setResult st.results t.name t.text
    dataset := st.dataset ++ repairAll 0 (t.records.map (backfillName t.name))
    completed := st.completed + 1 }

/-- Run the merge critical section once per completed task, in completion
order, from the scraper's initial state. -/
def runTasks (ts : List TaskResult) : AggState := ts.foldl handle_result ⟨[], [], 0⟩

/-- Records produced by one worker for a list of raw blocks
(`ScraperWorker.run` result payload). -/
def workerRecords (last first : String) (blocks : List String) (now : PyDateTime) :
    List RecordMap :=
  blocks.map fun b => (ScraperWorker.processBlock last first b now).toMap

/-- Lexicographic code-point comparison of character lists: the order
Python `sorted` uses on strings. -/
def listLeB : List Char → List Char → Bool
  | [], _ => true
  | _ :: _, [] => false
  | a :: as, b :: bs =>
    if a.toNat < b.toNat then true
    else if b.toNat < a.toNat then false
    else listLeB as bs

/-- Python string ordering as a proposition. -/
def strLe (a b : String) : Prop := listLeB a.data b.data = true

instance : DecidableRel strLe := fun _ _ => inferInstanceAs (Decidable (_ = true))

/-- `fieldnames = sorted(set-union of record keys)` in `export_to_csv`
(src/utils/export.py lines 38-43). -/
def sortedFieldnames (booking_data : List RecordMap) : List String :=
  List.insertionSort strLe
    ((booking_data.foldl (fun acc r => acc ++ (r : List (String × Val)).map Prod.fst) []).dedup)

/-- Column computation of `export_to_csv` (src/utils/export.py lines 36-47):
union of all record keys, sorted, then the `Raw Data` column removed. -/
def csvFieldnames (booking_data : List RecordMap) : List String :=
  if "Raw Data" ∈ sortedFieldnames booking_data then
    (sortedFieldnames booking_data).erase "Raw Data"
  else sortedFieldnames booking_data

/-- Modelled from the spec: the preferred column ordering the spec asserts
for tabular exports (Name, Status, Booking Number, Booking Date,
Release Date, Time Served, Cell Location, Charges, then the rest
alphabetically); the source's table view uses it, the CSV export does not. -/
def specPreferredColumns (booking_data : List RecordMap) : List String :=
  let keys :=
    ((booking_data.foldl (fun acc r => acc ++ (r : List (String × Val)).map Prod.fst) []).dedup).filter
      fun k => k ≠ "Raw Data"
  let preferred :=
    ["Name", "Status", "Booking Number", "Booking Date", "Release Date",
     "Time Served (Days)", "Cell Location", "Charges"]
  preferred.filter (fun k => k ∈ keys) ++
    List.insertionSort strLe (keys.filter fun k => k ∉ preferred)

/-- Delay correction in `MainWindow.run_search`
(src/gui/main_window.py lines 360-363): the pair actually handed to the
scraper before any task starts. -/
def run_search_delays (min_delay max_delay : Int) : Int × Int :=
  if max_delay ≤ min_delay then (min_delay, min_delay + 1) else (min_delay, max_delay)

example :
    csvFieldnames [[("Status", .s "x"), ("Booking Number", .s "y")]] =
    ["Booking Number", "Status"] := by decide

example :
    specPreferredColumns [[("Status", .s "x"), ("Booking Number", .s "y")]] =
    ["Status", "Booking Number"] := by decide

example : ScraperWorker.parse_date "01/01/2024 10:00:00" =
    some ⟨2024, 1, 1, 10, 0, 0⟩ := by decide

example : DataProcessing.parse_date "01/01/2024 10:00:00" = none := by decide

example : ScraperWorker.parse_date "N/A" = none := by decide

example : ScraperWorker.parse_date "02/30/2024" = none := by decide

example : tdDays ⟨2024, 1, 10, 8, 0, 0⟩ ⟨2024, 1, 1, 10, 0, 0⟩ = 8 := by decide

/-! ### Shared helper lemmas -/

theorem releasedCheck_true (rds : String) (now : PyDateTime) (d : PyDateTime)
    (h1 : normInput rds ≠ "") (h2 : normInput rds ≠ "n/a")
    (h3 : normInput rds ≠ "unknown") (h4 : normInput rds ≠ "still in custody")
    (hp : ScraperWorker.parse_date (cleanTimeSub (normInput rds)) = some d)
    (hle : d.toSec ≤ now.toSec) :
    ScraperWorker.releasedCheck rds now = true := by
  unfold ScraperWorker.releasedCheck
  rw [if_pos ⟨h1, h2, h3, h4⟩, hp]
  show (if d.toSec ≤ now.toSec then true else false) = true
  rw [if_pos hle]

theorem determine_status_released (rds cl : String) (now : PyDateTime) (d : PyDateTime)
    (h1 : normInput rds ≠ "") (h2 : normInput rds ≠ "n/a")
    (h3 : normInput rds ≠ "unknown") (h4 : normInput rds ≠ "still in custody")
    (hp : ScraperWorker.parse_date (cleanTimeSub (normInput rds)) = some d)
    (hle : d.toSec ≤ now.toSec) :
    ScraperWorker.determine_status rds cl now = "Released" := by
  unfold ScraperWorker.determine_status
  rw [releasedCheck_true rds now d h1 h2 h3 h4 hp hle]
  rfl

/-- The four no-date sentinels are fixed points of the `time:` suffix
stripper (none of them contains `time:`). -/
theorem cleanTimeSub_sentinel (s : String)
    (h : s = "" ∨ s = "n/a" ∨ s = "unknown" ∨ s = "still in custody") :
    cleanTimeSub s = s := by
  rcases h with h | h | h | h <;> rw [h] <;> decide

/-! ### Claim C3 -/

/-- Claim C3: for every pair of release-date text and cell-location text
such that the release text, after lowercasing, trimming and stripping a
trailing `time: ...` suffix, is not a no-date sentinel and parses
(via the worker's `parse_date`) to a date not in the future,
`determine_status` returns `Released`, regardless of the location text. -/
theorem c3_past_release_wins (rds cl : String) (now : PyDateTime) (d : PyDateTime)
    (hs1 : cleanTimeSub (normInput rds) ≠ "")
    (hs2 : cleanTimeSub (normInput rds) ≠ "n/a")
    (hs3 : cleanTimeSub (normInput rds) ≠ "unknown")
    (hs4 : cleanTimeSub (normInput rds) ≠ "still in custody")
    (hp : ScraperWorker.parse_date (cleanTimeSub (normInput rds)) = some d)
    (hle : d.toSec ≤ now.toSec) :
    ScraperWorker.determine_status rds cl now = "Released" := by
  have h1 : normInput rds ≠ "" := by
    intro he
    exact hs1 (by rw [he]; exact cleanTimeSub_sentinel "" (Or.inl rfl))
  have h2 : normInput rds ≠ "n/a" := by
    intro he
    exact hs2 (by rw [he]; exact cleanTimeSub_sentinel _ (Or.inr (Or.inl rfl)))
  have h3 : normInput rds ≠ "unknown" := by
    intro he
    exact hs3 (by rw [he]; exact cleanTimeSub_sentinel _ (Or.inr (Or.inr (Or.inl rfl))))
  have h4 : normInput rds ≠ "still in custody" := by
    intro he
    exact hs4 (by rw [he]; exact cleanTimeSub_sentinel _ (Or.inr (Or.inr (Or.inr rfl))))
  exact determine_status_released rds cl now d h1 h2 h3 h4 hp hle

/-- Witness for C3: a past release date with a trailing `Time:` suffix wins
over a location ("Main Jail") that contains custody keywords. -/
theorem c3_past_release_wins_witness :
    ScraperWorker.determine_status "01/10/2024 08:00 Time: 8:00 AM" "Main Jail"
      ⟨2026, 1, 1, 0, 0, 0⟩ = "Released" :=
  c3_past_release_wins "01/10/2024 08:00 Time: 8:00 AM" "Main Jail"
    ⟨2026, 1, 1, 0, 0, 0⟩ ⟨2024, 1, 10, 8, 0, 0⟩
    (by decide) (by decide) (by decide) (by decide) (by decide) (by decide)

/-! ### Claim C1 -/

/-- Claim C1 counterexample: on the Scenario 2 block the pipeline yields
status `Released` but `time_served_days = 8`, not 9 — the 8-day-22-hour
difference between 01/01/2024 10:00 and 01/10/2024 08:00 floors to 8 whole
days, and 8 ≥ 1 so the floor-at-1 rule does not change it. -/
theorem c1_scenario2_counterexample :
    (ScraperWorker.processBlock "Doe" "John" scenario2Block
      ⟨2026, 10, 1, 0, 0, 0⟩).status = "Released" ∧
    (ScraperWorker.processBlock "Doe" "John" scenario2Block
      ⟨2026, 10, 1, 0, 0, 0⟩).timeServed ≠ 9 := by
  constructor
  · decide
  · decide

/-- Claim C1 as amended: for the Scenario 2 block (release date
01/10/2024 08:00, booking 01/01/2024 10:00), at any current time not
before the release date, the normalized record has status `Released` and
`time_served_days = 8` (the spec's scenario value 9 contradicts the
spec's own `(release − booking).days` rule, which the code implements). -/
theorem c1_scenario2_amended (now : PyDateTime)
    (h : (⟨2024, 1, 10, 8, 0, 0⟩ : PyDateTime).toSec ≤ now.toSec) :
    (ScraperWorker.processBlock "Doe" "John" scenario2Block now).status = "Released" ∧
    (ScraperWorker.processBlock "Doe" "John" scenario2Block now).timeServed = 8 := by
  constructor
  · have hst : (ScraperWorker.processBlock "Doe" "John" scenario2Block now).status =
        ScraperWorker.determine_status "01/10/2024 08:00" "Main Jail" now := rfl
    rw [hst]
    exact determine_status_released "01/10/2024 08:00" "Main Jail" now
      ⟨2024, 1, 10, 8, 0, 0⟩ (by decide) (by decide) (by decide) (by decide) (by decide) h
  · rfl

/-- Witness for the amended C1 at a concrete current time. -/
theorem c1_scenario2_amended_witness :
    (ScraperWorker.processBlock "Doe" "John" scenario2Block
      ⟨2026, 10, 1, 0, 0, 0⟩).status = "Released" ∧
    (ScraperWorker.processBlock "Doe" "John" scenario2Block
      ⟨2026, 10, 1, 0, 0, 0⟩).timeServed = 8 :=
  c1_scenario2_amended ⟨2026, 10, 1, 0, 0, 0⟩ (by decide)

/-! ### Claim C2 -/

/-- Claim C2: for every raw block, the time-served computation of the
normalizer follows the three-case rule — booking and release parse with
release strictly later: whole days between them floored at 1; booking
parses but release does not: whole days from booking to now floored at 0;
booking fails to parse: 0 — and the result is never negative. -/
theorem c2_time_served_rule (last first text : String) (now : PyDateTime) :
    (∀ b r, ScraperWorker.bookingDateOf text = some b →
      ScraperWorker.releaseDateOf text = some r → b.toSec < r.toSec →
      (ScraperWorker.processBlock last first text now).timeServed = max 1 (tdDays r b)) ∧
    (∀ b, ScraperWorker.bookingDateOf text = some b →
      ScraperWorker.releaseDateOf text = none →
      (ScraperWorker.processBlock last first text now).timeServed = max 0 (tdDays now b)) ∧
    (ScraperWorker.bookingDateOf text = none →
      (ScraperWorker.processBlock last first text now).timeServed = 0) ∧
    0 ≤ (ScraperWorker.processBlock last first text now).timeServed := by
  have key : (ScraperWorker.processBlock last first text now).timeServed =
      ScraperWorker.computeTimeServed (ScraperWorker.bookingDateOf text)
        (ScraperWorker.releaseDateOf text) now := rfl
  refine ⟨?_, ?_, ?_, ?_⟩
  · intro b r hb hr hlt
    rw [key, hb, hr]
    show (if b.toSec < r.toSec then max 1 (tdDays r b) else max 0 (tdDays now b)) =
      max 1 (tdDays r b)
    rw [if_pos hlt]
  · intro b hb hr
    rw [key, hb, hr]
    rfl
  · intro hb
    rw [key, hb]
    rfl
  · rw [key]
    rcases hB : ScraperWorker.bookingDateOf text with _ | b
    · exact le_refl 0
    · rcases hR : ScraperWorker.releaseDateOf text with _ | r
      · exact le_max_left 0 _
      · show (0 : Int) ≤
          if b.toSec < r.toSec then max 1 (tdDays r b) else max 0 (tdDays now b)
        by_cases hlt : b.toSec < r.toSec
        · rw [if_pos hlt]
          exact le_trans zero_le_one (le_max_left 1 _)
        · rw [if_neg hlt]
          exact le_max_left 0 _

/-- Witness for C2, instantiating the first case on the Scenario 2 block. -/
theorem c2_time_served_rule_witness :
    (ScraperWorker.processBlock "Doe" "John" scenario2Block
      ⟨2026, 10, 1, 0, 0, 0⟩).timeServed =
      max 1 (tdDays ⟨2024, 1, 10, 8, 0, 0⟩ ⟨2024, 1, 1, 10, 0, 0⟩) :=
  (c2_time_served_rule "Doe" "John" scenario2Block ⟨2026, 10, 1, 0, 0, 0⟩).1
    ⟨2024, 1, 1, 10, 0, 0⟩ ⟨2024, 1, 10, 8, 0, 0⟩ (by decide) (by decide) (by decide)

/-! ### Claim C5 -/

/-- Claim C5 counterexample: the worker's `parse_date` and the
data-processing `parse_date` are not extensionally equal — they disagree
on the input `"01/01/2024 10:00:00"`, which only the worker's
`%m/%d/%Y %H:%M:%S` format accepts. -/
theorem c5_parse_date_counterexample :
    ScraperWorker.parse_date "01/01/2024 10:00:00" ≠
      DataProcessing.parse_date "01/01/2024 10:00:00" := by decide

/-- Claim C5 as amended: the worker's `parse_date` implements the five
contract formats with the sentinel handling, but the data-processing
`parse_date` omits the `MM/DD/YYYY HH:MM:SS` format (and the non-empty
sentinels), so the two differ: on `"01/01/2024 10:00:00"` the worker
parses a datetime and the data-processing module returns nothing. -/
theorem c5_parse_date_divergence :
    ScraperWorker.parse_date "01/01/2024 10:00:00" = some ⟨2024, 1, 1, 10, 0, 0⟩ ∧
    DataProcessing.parse_date "01/01/2024 10:00:00" = none ∧
    ScraperWorker.parse_date "N/A" = none ∧
    DataProcessing.parse_date "N/A" = none := by decide

/-! ### Claim C9 -/

/-- Claim C9: a configuration with `max_delay <= min_delay` is corrected to
`max_delay = min_delay + 1` before the scraper is constructed, and a
configuration with `max_delay > min_delay` is passed through unchanged. -/
theorem c9_delay_correction (mn mx : Int) :
    (mx ≤ mn → run_search_delays mn mx = (mn, mn + 1)) ∧
    (mn < mx → run_search_delays mn mx = (mn, mx)) := by
  constructor
  · intro h
    unfold run_search_delays
    rw [if_pos h]
  · intro h
    unfold run_search_delays
    rw [if_neg (not_le.mpr h)]

/-- Witness for C9 on both sides of the correction. -/
theorem c9_delay_correction_witness :
    run_search_delays 5 3 = (5, 6) ∧ run_search_delays 2 5 = (2, 5) :=
  ⟨(c9_delay_correction 5 3).1 (by decide), (c9_delay_correction 2 5).2 (by decide)⟩

/-! ### Claim C10 -/

/-- Claim C10: when some line of the block contains `Booking Number:` but
the regex `Booking Number:\s*(\d+)` finds no digit run after the label
anywhere in the block, `extract_value` falls through to the generic rule:
it returns the stripped line after the first line containing the label,
and nothing only when that line is the last one. -/
theorem c10_booking_number_fallthrough (text : String) (i : Nat)
    (h1 : (pyLines text).findIdx? (fun l => strContains l "Booking Number:") = some i)
    (h2 : reBookingNumber text = none) :
    ScraperWorker.extract_value text "Booking Number:" =
      ((pyLines text).get? (i + 1)).map pyStrip := by
  have ht : ¬(text = "" ∨ ("Booking Number:" : String) = "") := by
    rintro (he | he)
    · rw [he] at h1
      have hn : (pyLines "").findIdx? (fun l => strContains l "Booking Number:") = none := by
        decide
      rw [hn] at h1
      exact Option.noConfusion h1
    · exact absurd he (by decide)
  unfold ScraperWorker.extract_value
  rw [if_neg ht, h1]
  show (match reBookingNumber text with
    | some v => some v
    | none => genericNext (pyLines text) i) = ((pyLines text).get? (i + 1)).map pyStrip
  rw [h2]
  rfl

/-- Witness for C10: `Booking Number: pending` has no digits after the
label, so the next line is returned. -/
theorem c10_booking_number_fallthrough_witness :
    ScraperWorker.extract_value "Booking Number: pending\nFoo" "Booking Number:" =
      some "Foo" := by
  have h := c10_booking_number_fallthrough "Booking Number: pending\nFoo" 0
    (by decide) (by decide)
  rw [h]
  decide

/-! ### Repair-step helper lemmas (shared by C4, C7, C8) -/

theorem rmHas_append_left {r m : RecordMap} {k : String} (h : rmHas r k = true) :
    rmHas (r ++ m) k = true := by
  simp only [rmHas] at h
  simp only [rmHas, List.any_append, h, Bool.true_or]

theorem rmHas_append_single (r : RecordMap) (k : String) (v : Val) :
    rmHas (r ++ [(k, v)]) k = true := by
  simp [rmHas, List.any_append]

/-- A record that already has its required fields is untouched by the
repair step. -/
theorem repairStep_id (name : String) (i : Nat) (r : RecordMap)
    (hn : rmHas r "Name" = true) (hb : rmHas r "Booking Number" = true)
    (hs : rmHas r "Status" = true) :
    repairStep name i r = r := by
  unfold repairStep backfillName repairRecord
  rw [if_pos hn, if_pos hb, if_pos hs]

theorem repairStep_has_name (name : String) (i : Nat) (r : RecordMap) :
    rmHas (repairStep name i r) "Name" = true := by
  unfold repairStep backfillName repairRecord
  by_cases hn : rmHas r "Name" = true
  · rw [if_pos hn]
    by_cases hb : rmHas r "Booking Number" = true
    · rw [if_pos hb]
      by_cases hs : rmHas r "Status" = true
      · rw [if_pos hs]
        exact hn
      · rw [if_neg hs]
        exact rmHas_append_left hn
    · rw [if_neg hb]
      by_cases hs : rmHas (r ++ [("Booking Number", Val.s ("Unknown-" ++ toString i))]) "Status" = true
      · rw [if_pos hs]
        exact rmHas_append_left hn
      · rw [if_neg hs]
        exact rmHas_append_left (rmHas_append_left hn)
  · rw [if_neg hn]
    have hn2 : rmHas (r ++ [("Name", Val.s name)]) "Name" = true := rmHas_append_single r _ _
    by_cases hb : rmHas (r ++ [("Name", Val.s name)]) "Booking Number" = true
    · rw [if_pos hb]
      by_cases hs : rmHas (r ++ [("Name", Val.s name)]) "Status" = true
      · rw [if_pos hs]
        exact hn2
      · rw [if_neg hs]
        exact rmHas_append_left hn2
    · rw [if_neg hb]
      by_cases hs : rmHas ((r ++ [("Name", Val.s name)]) ++
          [("Booking Number", Val.s ("Unknown-" ++ toString i))]) "Status" = true
      · rw [if_pos hs]
        exact rmHas_append_left hn2
      · rw [if_neg hs]
        exact rmHas_append_left (rmHas_append_left hn2)

theorem repairRecord_has_bn (i : Nat) (r : RecordMap) :
    rmHas (repairRecord i r) "Booking Number" = true := by
  unfold repairRecord
  by_cases hb : rmHas r "Booking Number" = true
  · rw [if_pos hb]
    by_cases hs : rmHas r "Status" = true
    · rw [if_pos hs]
      exact hb
    · rw [if_neg hs]
      exact rmHas_append_left hb
  · rw [if_neg hb]
    have hb2 : rmHas (r ++ [("Booking Number", Val.s ("Unknown-" ++ toString i))])
        "Booking Number" = true := rmHas_append_single r _ _
    by_cases hs : rmHas (r ++ [("Booking Number", Val.s ("Unknown-" ++ toString i))])
        "Status" = true
    · rw [if_pos hs]
      exact hb2
    · rw [if_neg hs]
      exact rmHas_append_left hb2

theorem repairRecord_has_status (i : Nat) (r : RecordMap) :
    rmHas (repairRecord i r) "Status" = true := by
  unfold repairRecord
  by_cases hb : rmHas r "Booking Number" = true
  · rw [if_pos hb]
    by_cases hs : rmHas r "Status" = true
    · rw [if_pos hs]
      exact hs
    · rw [if_neg hs]
      exact rmHas_append_single r _ _
  · rw [if_neg hb]
    by_cases hs : rmHas (r ++ [("Booking Number", Val.s ("Unknown-" ++ toString i))])
        "Status" = true
    · rw [if_pos hs]
      exact hs
    · rw [if_neg hs]
      exact rmHas_append_single _ _ _

theorem repairStep_has_bn (name : String) (i : Nat) (r : RecordMap) :
    rmHas (repairStep name i r) "Booking Number" = true :=
  repairRecord_has_bn i (backfillName name r)

theorem repairStep_has_status (name : String) (i : Nat) (r : RecordMap) :
    rmHas (repairStep name i r) "Status" = true :=
  repairRecord_has_status i (backfillName name r)

/-! ### Claim C8 -/

/-- Claim C8: the merge's repair step (name backfill plus required-field
repair) is the identity on records that already carry Name, Booking Number
and Status, and applying it twice always equals applying it once. -/
theorem c8_repair_idempotent :
    (∀ (name : String) (i : Nat) (r : RecordMap),
      rmHas r "Name" = true → rmHas r "Booking Number" = true →
      rmHas r "Status" = true → repairStep name i r = r) ∧
    (∀ (name : String) (i : Nat) (r : RecordMap),
      repairStep name i (repairStep name i r) = repairStep name i r) :=
  ⟨repairStep_id, fun name i r =>
    repairStep_id name i (repairStep name i r) (repairStep_has_name name i r)
      (repairStep_has_bn name i r) (repairStep_has_status name i r)⟩

/-- Witness for C8: the repair step leaves a complete record unchanged. -/
theorem c8_repair_idempotent_witness :
    repairStep "Doe, John" 0
      [("Name", Val.s "Doe, John"), ("Booking Number", Val.s "55521"),
       ("Status", Val.s "Released")] =
      [("Name", Val.s "Doe, John"), ("Booking Number", Val.s "55521"),
       ("Status", Val.s "Released")] :=
  c8_repair_idempotent.1 "Doe, John" 0 _ (by decide) (by decide) (by decide)

/-! ### Claim C7 -/

theorem repairAll_length (l : List RecordMap) : ∀ i : Nat, (repairAll i l).length = l.length := by
  induction l with
  | nil => intro i; rfl
  | cons r t ih =>
    intro i
    simp only [repairAll, List.length_cons, ih]

/-- Invariant of a fold of merge steps, for any starting state. -/
theorem handle_result_foldl (ts : List TaskResult) (st : AggState) :
    ((ts.foldl handle_result st).dataset.length =
      st.dataset.length + (ts.map fun t => t.records.length).sum) ∧
    (ts.foldl handle_result st).completed = st.completed + ts.length := by
  induction ts generalizing st with
  | nil => simp
  | cons t ts ih =>
    rcases ih (handle_result st t) with ⟨h1, h2⟩
    constructor
    · rw [List.foldl_cons, h1]
      simp only [handle_result, List.length_append, repairAll_length, List.length_map,
        List.map_cons, List.sum_cons]
      omega
    · rw [List.foldl_cons, h2]
      simp only [handle_result, List.map_cons, List.length_cons]
      omega

/-- Claim C7: merging completed tasks one critical section at a time keeps
the dataset length equal to the sum of the record counts merged so far and
the completed counter equal to the number of tasks merged so far; in
particular two tasks yield the sum of their record counts and counter 2. -/
theorem c7_merge_invariant :
    (∀ ts : List TaskResult,
      (runTasks ts).dataset.length = (ts.map fun t => t.records.length).sum ∧
      (runTasks ts).completed = ts.length) ∧
    (∀ t1 t2 : TaskResult,
      (runTasks [t1, t2]).dataset.length = t1.records.length + t2.records.length ∧
      (runTasks [t1, t2]).completed = 2) := by
  have base : ∀ ts : List TaskResult,
      (runTasks ts).dataset.length = (ts.map fun t => t.records.length).sum ∧
      (runTasks ts).completed = ts.length := by
    intro ts
    rcases handle_result_foldl ts ⟨[], [], 0⟩ with ⟨h1, h2⟩
    exact ⟨by simpa using h1, by simpa using h2⟩
  refine ⟨base, ?_⟩
  intro t1 t2
  rcases base [t1, t2] with ⟨h1, h2⟩
  constructor
  · rw [h1]
    simp
  · rw [h2]
    rfl

/-! ### Claim C4 -/

theorem repairAll_get? (l : List RecordMap) : ∀ i n : Nat,
    (repairAll i l).get? n = (l.get? n).map fun r => repairRecord (i + n) r := by
  induction l with
  | nil =>
    intro i n
    simp [repairAll]
  | cons r t ih =>
    intro i n
    cases n with
    | zero => simp [repairAll]
    | succ n =>
      simp only [repairAll, List.get?_cons_succ, ih (i + 1) n]
      have hidx : i + 1 + n = i + (n + 1) := by omega
      rw [hidx]

/-- Claim C4 counterexample: a batch whose index-3 block has no
`Booking Number:` field ends up, after the pipeline's repair, with booking
number `"Unknown"` — not `"Unknown-3"` — because the worker substitutes
`"Unknown"` for the missing field before the aggregator ever sees the
record, so the `Unknown-<index>` repair never fires. -/
def c4Blocks : List String :=
  ["Booking Number: 111\nCharges:\nTheft", "No data", "No data",
   "Name line only\nRelease Date: pending review"]

theorem c4_unknown_index_counterexample :
    ((runTasks [⟨"Doe, John", "results", workerRecords "Doe" "John" c4Blocks
        ⟨2026, 10, 1, 0, 0, 0⟩⟩]).dataset.get? 3).bind
      (fun m => rmGet m "Booking Number") ≠ some (Val.s "Unknown-3") := by decide

/-- Claim C4 as amended: for every batch of raw blocks whose block at
index 3 yields no booking number from `extract_value`, the record at index
3 of the merged dataset carries booking number exactly `"Unknown"` (the
worker's `or "Unknown"` default); the repair's `"Unknown-<index>"` value is
reserved for records missing the Booking Number key entirely, which the
worker never produces. -/
theorem c4_missing_booking_number (last first name text : String) (blocks : List String)
    (now : PyDateTime) (b : String)
    (h3 : blocks.get? 3 = some b)
    (hx : ScraperWorker.extract_value b "Booking Number:" = none) :
    ((runTasks [⟨name, text, workerRecords last first blocks now⟩]).dataset.get? 3).bind
      (fun m => rmGet m "Booking Number") = some (Val.s "Unknown") := by
  have hds : (runTasks [⟨name, text, workerRecords last first blocks now⟩]).dataset =
      repairAll 0 ((workerRecords last first blocks now).map (backfillName name)) := rfl
  rw [hds, repairAll_get?]
  unfold workerRecords
  rw [List.get?_map, List.get?_map, h3]
  simp only [Option.map_some', Option.some_bind]
  have hid : repairRecord (0 + 3)
      (backfillName name ((ScraperWorker.processBlock last first b now).toMap)) =
      (ScraperWorker.processBlock last first b now).toMap :=
    repairStep_id name (0 + 3) ((ScraperWorker.processBlock last first b now).toMap)
      rfl rfl rfl
  rw [hid]
  have hval : rmGet ((ScraperWorker.processBlock last first b now).toMap) "Booking Number" =
      some (Val.s (pyOr (ScraperWorker.extract_value b "Booking Number:") "Unknown")) := rfl
  rw [hval, hx]
  rfl

/-- Witness for the amended C4 on the concrete batch. -/
theorem c4_missing_booking_number_witness :
    ((runTasks [⟨"Doe, John", "results", workerRecords "Doe" "John" c4Blocks
        ⟨2026, 10, 1, 0, 0, 0⟩⟩]).dataset.get? 3).bind
      (fun m => rmGet m "Booking Number") = some (Val.s "Unknown") :=
  c4_missing_booking_number "Doe" "John" "Doe, John" "results" c4Blocks
    ⟨2026, 10, 1, 0, 0, 0⟩ "Name line only\nRelease Date: pending review"
    (by decide) (by decide)

/-! ### Claim C6 -/

theorem listLeB_total : ∀ a b : List Char, listLeB a b = true ∨ listLeB b a = true := by
  intro a
  induction a with
  | nil =>
    intro b
    left
    rfl
  | cons x xs ih =>
    intro b
    cases b with
    | nil =>
      right
      rfl
    | cons y ys =>
      by_cases h1 : x.toNat < y.toNat
      · left
        simp [listLeB, h1]
      · by_cases h2 : y.toNat < x.toNat
        · right
          simp [listLeB, h2]
        · rcases ih ys with h | h
          · left
            simp [listLeB, h1, h2, h]
          · right
            simp [listLeB, h1, h2, h]

theorem listLeB_trans :
    ∀ a b c : List Char, listLeB a b = true → listLeB b c = true → listLeB a c = true := by
  intro a
  induction a with
  | nil =>
    intro b c _ _
    rfl
  | cons x xs ih =>
    intro b c hab hbc
    cases b with
    | nil => exact absurd hab (by simp [listLeB])
    | cons y ys =>
      cases c with
      | nil => exact absurd hbc (by simp [listLeB])
      | cons z zs =>
        simp only [listLeB] at hab hbc ⊢
        by_cases hxy : x.toNat < y.toNat
        · by_cases hyz : y.toNat < z.toNat
          · rw [if_pos (by omega : x.toNat < z.toNat)]
          · by_cases hzy : z.toNat < y.toNat
            · rw [if_neg hyz, if_pos hzy] at hbc
              exact absurd hbc (by simp)
            · rw [if_pos (by omega : x.toNat < z.toNat)]
        · by_cases hyx : y.toNat < x.toNat
          · rw [if_neg hxy, if_pos hyx] at hab
            exact absurd hab (by simp)
          · by_cases hyz : y.toNat < z.toNat
            · rw [if_pos (by omega : x.toNat < z.toNat)]
            · by_cases hzy : z.toNat < y.toNat
              · rw [if_neg hyz, if_pos hzy] at hbc
                exact absurd hbc (by simp)
              · rw [if_neg hxy, if_neg hyx] at hab
                rw [if_neg hyz, if_neg hzy] at hbc
                rw [if_neg (by omega : ¬x.toNat < z.toNat),
                  if_neg (by omega : ¬z.toNat < x.toNat)]
                exact ih ys zs hab hbc

instance : IsTotal String strLe := ⟨fun a b => listLeB_total a.data b.data⟩

instance : IsTrans String strLe := ⟨fun a b c => listLeB_trans a.data b.data c.data⟩

theorem mem_keysUnion (data : List RecordMap) (k : String) :
    (k ∈ data.foldl (fun acc r => acc ++ (r : List (String × Val)).map Prod.fst) []) ↔
      ∃ r ∈ data, k ∈ (r : List (String × Val)).map Prod.fst := by
  have gen : ∀ acc : List String,
      (k ∈ data.foldl (fun acc r => acc ++ (r : List (String × Val)).map Prod.fst) acc ↔
        k ∈ acc ∨ ∃ r ∈ data, k ∈ (r : List (String × Val)).map Prod.fst) := by
    induction data with
    | nil =>
      intro acc
      simp
    | cons r t ih =>
      intro acc
      rw [List.foldl_cons, ih]
      simp only [List.mem_append, List.mem_cons]
      constructor
      · rintro ((h | h) | ⟨r2, hr2, hk⟩)
        · exact Or.inl h
        · exact Or.inr ⟨r, Or.inl rfl, h⟩
        · exact Or.inr ⟨r2, Or.inr hr2, hk⟩
      · rintro (h | ⟨r2, (rfl | hr2), hk⟩)
        · exact Or.inl (Or.inl h)
        · exact Or.inl (Or.inr hk)
        · exact Or.inr ⟨r2, hr2, hk⟩
  simpa using gen []

/-- Claim C6 counterexample: for a record set with keys Status and
Booking Number, the CSV export orders columns alphabetically
(Booking Number before Status), not by the spec's preferred prefix
(Status before Booking Number). -/
def c6Data : List RecordMap := [[("Status", Val.s "Released"), ("Booking Number", Val.s "1")]]

theorem c6_preferred_order_counterexample :
    csvFieldnames c6Data ≠ specPreferredColumns c6Data ∧
    csvFieldnames c6Data = ["Booking Number", "Status"] ∧
    specPreferredColumns c6Data = ["Status", "Booking Number"] := by decide

/-- Claim C6 as amended: for every non-empty record set, the CSV export's
columns are exactly the union of all record keys minus the raw-text field,
in alphabetical (code-point) order with no duplicates — there is no
preferred-prefix ordering in the CSV export. -/
theorem c6_csv_columns_alphabetical (data : List RecordMap) (hne : data ≠ []) :
    (csvFieldnames data).Sorted strLe ∧ (csvFieldnames data).Nodup ∧
    ∀ k : String, k ∈ csvFieldnames data ↔
      (k ≠ "Raw Data" ∧ ∃ r ∈ data, k ∈ (r : List (String × Val)).map Prod.fst) := by
  have hsort : (sortedFieldnames data).Sorted strLe :=
    List.sorted_insertionSort strLe _
  have hperm : (sortedFieldnames data).Perm
      ((data.foldl (fun acc r => acc ++ (r : List (String × Val)).map Prod.fst) []).dedup) :=
    List.perm_insertionSort strLe _
  have hnodup : (sortedFieldnames data).Nodup :=
    (hperm.nodup_iff).mpr (List.nodup_dedup _)
  have hmem : ∀ k : String, k ∈ sortedFieldnames data ↔
      ∃ r ∈ data, k ∈ (r : List (String × Val)).map Prod.fst := by
    intro k
    rw [hperm.mem_iff, List.mem_dedup]
    exact mem_keysUnion data k
  unfold csvFieldnames
  by_cases hrd : ("Raw Data" : String) ∈ sortedFieldnames data
  · rw [if_pos hrd]
    refine ⟨?_, ?_, ?_⟩
    · exact List.Pairwise.sublist (List.erase_sublist _ _) hsort
    · exact List.Nodup.sublist (List.erase_sublist _ _) hnodup
    · intro k
      rw [List.Nodup.mem_erase_iff hnodup]
      exact and_congr_right fun _ => hmem k
  · rw [if_neg hrd]
    refine ⟨hsort, hnodup, ?_⟩
    intro k
    constructor
    · intro hks
      exact ⟨fun he => hrd (he ▸ hks), (hmem k).mp hks⟩
    · intro h
      exact (hmem k).mpr h.2

/-- Witness for the amended C6 on the concrete record set. -/
theorem c6_csv_columns_alphabetical_witness :
    (csvFieldnames c6Data).Sorted strLe ∧ (csvFieldnames c6Data).Nodup ∧
    ∀ k : String, k ∈ csvFieldnames c6Data ↔
      (k ≠ "Raw Data" ∧ ∃ r ∈ c6Data, k ∈ (r : List (String × Val)).map Prod.fst) :=
  c6_csv_columns_alphabetical c6Data (by decide)
